import Mathlib

/-!
Verification of the local index/cache engine of the
`claude-talk-to-figma-mcp-daisyui` repository.

The definitions below are a shallow embedding of the TypeScript source:
* the SQLite `CacheManager` (`upsertNode`, `upsertPage`, `upsertComponent`,
  `incrementComponentUsage`, `setMeta`, `clearAll`, `searchNodes`,
  `setDocumentId`, `runMigrations`);
* the sync/invalidation controller in `tools/search-tools.ts`
  (`onChangeNotification` handler, `ensureIndex`, `buildIndexImpl`).

SQLite tables are modelled as Lean lists of rows; `CURRENT_TIMESTAMP` is an
abstract tick of type `Nat` threaded explicitly.  SQL REAL columns
(`x`, `y`, `width`, `height`) are modelled as `Option Int`: the engine only
stores and copies these values, it never computes with them.
-/

set_option autoImplicit false

namespace FigmaIndex

/-! ## Change notifications (`search-tools.ts`, `onChangeNotification` handler)

The notification payload `{changeType, details: {nodeCreations, nodeDeletions,
propertyChanges}, timestamp}`.  The three counters are optional in the
TypeScript payload, hence `Option Nat`. -/

structure ChangeDetails where
  nodeCreations : Option Nat
  nodeDeletions : Option Nat
  propertyChanges : Option Nat
deriving DecidableEq

structure ChangeNotification where
  changeType : String
  details : ChangeDetails
  timestamp : String
deriving DecidableEq

/-- JavaScript truthiness of `details.f && details.f > k`: an absent field and
the number `0` are falsy, so the conjunct is `true` iff the field is present
and greater than `k`. -/
def optFieldGt (o : Option Nat) (k : Nat) : Bool :=
  match o with
  | some n => n != 0 && decide (k < n)
  | none => false

/-- The condition under which the registered `onChangeNotification` handler
marks the index invalidated (`search-tools.ts` lines 37-60): only
`document_change` notifications, and only when there is at least one node
creation or deletion or more than five property changes. -/
def shouldInvalidate (n : ChangeNotification) : Bool :=
  n.changeType == "document_change" &&
    (optFieldGt n.details.nodeCreations 0 ||
     optFieldGt n.details.nodeDeletions 0 ||
     optFieldGt n.details.propertyChanges 5)

/-- In-process invalidation state touched by the handler: the module-level
boolean plus the two `sync_meta` keys it writes. -/
structure InvalState where
  indexInvalidated : Bool
  metaIndexInvalidated : String
  metaInvalidationReason : String
deriving DecidableEq

/-- Effect of the handler on the invalidation state. -/
def onChangeNotificationHandler (n : ChangeNotification) (s : InvalState) : InvalState :=
  if shouldInvalidate n then
    { indexInvalidated := true
      metaIndexInvalidated := "true"
      metaInvalidationReason := "document_change:" ++ n.timestamp }
  else s

/-! ## Node rows and `CacheManager.upsertNode` (`part_001` lines 261-322)

`IndexedNode` minus the auto-increment `id` and `last_synced`, exactly the
argument type `Omit<IndexedNode, 'id' | 'last_synced'>`. -/

structure NodeInput where
  figma_id : String
  name : String
  type_ : String
  parent_id : Option String
  page_id : String
  path : String
  depth : Nat
  component_key : Option String
  component_name : Option String
  daisyui_class : Option String
  daisyui_component : Option String
  daisyui_variant : Option String
  daisyui_size : Option String
  tailwind_classes : Option String
  data_testid : Option String
  x : Option Int
  y : Option Int
  width : Option Int
  height : Option Int
  content_hash : Option String
deriving DecidableEq

/-- A row of the `nodes` table: the insertable fields plus the
`INTEGER PRIMARY KEY AUTOINCREMENT` id and `last_synced`. -/
structure NodeRow where
  id : Nat
  fields : NodeInput
  last_synced : Nat
deriving DecidableEq

/-- Next AUTOINCREMENT value: one more than the largest id ever used (modelled
over the current rows). -/
def nextNodeId (t : List NodeRow) : Nat :=
  (t.map (fun r => r.id)).foldr max 0 + 1

/-- `CacheManager.upsertNode`: `INSERT ... ON CONFLICT(figma_id) DO UPDATE SET`
overwriting every mutable column and refreshing `last_synced`; a fresh insert
gets `last_synced` from its `DEFAULT CURRENT_TIMESTAMP`. -/
def upsertNode (now : Nat) (n : NodeInput) (t : List NodeRow) : List NodeRow :=
  if t.any (fun r => r.fields.figma_id == n.figma_id) then
    t.map (fun r =>
      if r.fields.figma_id == n.figma_id then
        { id := r.id, fields := n, last_synced := now }
      else r)
  else
    t ++ [{ id := nextNodeId t, fields := n, last_synced := now }]

/-- Number of rows holding a given `figma_id`. -/
def nodeCountFor (f : String) (t : List NodeRow) : Nat :=
  (t.filter (fun r => r.fields.figma_id == f)).length

/-- Logical content of the table: everything except the `last_synced`
timestamp. -/
def nodesLogical (t : List NodeRow) : List (Nat × NodeInput) :=
  t.map (fun r => (r.id, r.fields))

/-! ## Component rows, `upsertComponent` and `incrementComponentUsage`
(`part_001` lines 586-649) -/

structure ComponentInput where
  key : String
  name : String
  category : String
  subcategory : Option String
  figma_id : Option String
  daisyui_class : String
  tailwind_base : Option String
  variants : Option String
  default_variant : Option String
  description : Option String
  usage_hint : Option String
  example_contexts : Option String
  clone_ready : Bool
deriving DecidableEq

structure ComponentRow where
  id : Nat
  input : ComponentInput
  usage_count : Nat
  last_used : Option Nat
  last_synced : Nat
deriving DecidableEq

def nextComponentId (t : List ComponentRow) : Nat :=
  (t.map (fun r => r.id)).foldr max 0 + 1

/-- `CacheManager.upsertComponent`: conflict target `key`; the merge
overwrites every insertable column and refreshes `last_synced`, but leaves
`usage_count` and `last_used` alone (they are incremented only by
`incrementComponentUsage`). -/
def upsertComponent (now : Nat) (c : ComponentInput) (t : List ComponentRow) :
    List ComponentRow :=
  if t.any (fun r => r.input.key == c.key) then
    t.map (fun r =>
      if r.input.key == c.key then
        { r with input := c, last_synced := now }
      else r)
  else
    t ++ [{ id := nextComponentId t, input := c, usage_count := 0,
            last_used := none, last_synced := now }]

/-- `CacheManager.incrementComponentUsage`:
`UPDATE components SET usage_count = usage_count + 1,
last_used = CURRENT_TIMESTAMP WHERE key = ?`.  An UPDATE touching zero rows
is a silent no-op. -/
def incrementComponentUsage (now : Nat) (key : String) (t : List ComponentRow) :
    List ComponentRow :=
  t.map (fun r =>
    if r.input.key == key then
      { r with usage_count := r.usage_count + 1, last_used := some now }
    else r)

/-! ## Page rows and `upsertPage` (`part_001` lines 539-561) -/

structure PageInput where
  id : String
  name : String
  node_count : Nat
  component_count : Nat
  frame_count : Nat
  summary : Option String
  main_sections : Option String
deriving DecidableEq

structure PageRow where
  input : PageInput
  last_synced : Nat
deriving DecidableEq

/-- `CacheManager.upsertPage`: conflict target is the primary key `id`; the
merge overwrites all columns and refreshes `last_synced`. -/
def upsertPage (now : Nat) (p : PageInput) (t : List PageRow) : List PageRow :=
  if t.any (fun r => r.input.id == p.id) then
    t.map (fun r =>
      if r.input.id == p.id then { input := p, last_synced := now } else r)
  else
    t ++ [{ input := p, last_synced := now }]

/-! ## Remaining tables and `sync_meta` (`part_001` lines 898-960) -/

/-- A `design_tokens` row (only ever cleared by the engine itself, so the
fields beyond the schema's identifying columns are immaterial here). -/
structure DesignTokenRow where
  name : String
  category : String
  value : String
deriving DecidableEq

structure VariableCollectionRow where
  id : String
  name : String
  modes : Option String
  default_mode_id : Option String
  variable_count : Nat
  last_synced : Nat
deriving DecidableEq

structure VariableRow where
  id : String
  name : String
  collection_id : String
  resolved_type : String
  daisyui_name : Option String
  hex : Option String
  last_synced : Nat
deriving DecidableEq

structure MetaRow where
  key : String
  value : String
  updated_at : Nat
deriving DecidableEq

/-- `CacheManager.setMeta`: `INSERT ... ON CONFLICT(key) DO UPDATE SET value,
updated_at = CURRENT_TIMESTAMP`. -/
def setMeta (now : Nat) (key value : String) (m : List MetaRow) : List MetaRow :=
  if m.any (fun r => r.key == key) then
    m.map (fun r =>
      if r.key == key then { key := r.key, value := value, updated_at := now }
      else r)
  else
    m ++ [{ key := key, value := value, updated_at := now }]

/-- `SELECT value FROM sync_meta WHERE key = ?` (`CacheManager.getMeta`). -/
def getMeta (key : String) (m : List MetaRow) : Option String :=
  (m.find? (fun r => r.key == key)).map (fun r => r.value)

/-- The whole per-document store, one field per table of the schema that
`runMigrations` creates. -/
structure CacheState where
  nodes : List NodeRow
  components : List ComponentRow
  pages : List PageRow
  design_tokens : List DesignTokenRow
  varRows : List VariableRow          -- the `variables` table
  variable_collections : List VariableCollectionRow
  sync_meta : List MetaRow
deriving DecidableEq

/-- `CacheManager.clearAll` (`part_001` lines 949-960): `DELETE FROM` the six
data tables, then `setMeta('last_full_sync', '')`.  `sync_meta` itself is not
cleared. -/
def clearAll (now : Nat) (s : CacheState) : CacheState :=
  { nodes := []
    components := []
    pages := []
    design_tokens := []
    varRows := []
    variable_collections := []
    sync_meta := setMeta now "last_full_sync" "" s.sync_meta }

/-! ## Document partition manager (`part_001` lines 141-156, 247-252)

`CacheManager.setDocumentId` sanitizes the document id with
`documentId.replace(/[^a-zA-Z0-9_-]/g, '_')` and recomputes
`this.dbPath = path.join(this.cacheDir, "figma-index-" + safeId + ".db")`. -/

/-- A character the sanitizer keeps unchanged: `[a-zA-Z0-9_-]`
(`Char.isAlphanum` is exactly ASCII letters and digits). -/
def docIdCharAllowed (c : Char) : Bool :=
  c.isAlphanum || c == Char.ofNat 95 || c == Char.ofNat 45

/-- `documentId.replace(/[^a-zA-Z0-9_-]/g, '_')`: every disallowed character
is replaced by an underscore. -/
def sanitizeDocId (s : String) : String :=
  String.mk (s.data.map (fun c => if docIdCharAllowed c then c else Char.ofNat 95))

/-- The spec's own wording, for comparison: a safe id obtained by *stripping*
(removing) the characters outside `[a-zA-Z0-9_-]`. -/
def sanitizeDocIdSpecStrip (s : String) : String :=
  String.mk (s.data.filter docIdCharAllowed)

/-- The deterministic per-document database path
`<cache-dir>/figma-index-<safe-id>.db` (with `path.join` modelled as
slash-concatenation). -/
def dbPathFor (cacheDir documentId : String) : String :=
  cacheDir ++ "/figma-index-" ++ sanitizeDocId documentId ++ ".db"

/-- The connection-relevant fields of `CacheManager`. -/
structure PartitionState where
  currentDocumentId : Option String
  dbOpen : Bool
  dbPath : String
deriving DecidableEq

/-- `CacheManager.setDocumentId`: early-return when the same document is
already active with a live connection; otherwise close a live connection to a
different document, then record the new id and recompute the path.  (The new
connection is opened lazily by `getDb`/`initialize`, not here.) -/
def setDocumentId (cacheDir documentId : String) (s : PartitionState) :
    PartitionState :=
  if s.currentDocumentId == some documentId && s.dbOpen then s
  else
    let afterClose : PartitionState :=
      if s.dbOpen && !(s.currentDocumentId == some documentId) then
        { s with dbOpen := false }
      else s
    { afterClose with
      currentDocumentId := some documentId
      dbPath := dbPathFor cacheDir documentId }

/-! ## Schema migrations (`part_001` lines 220-232, `migrations/*.sql`)

A small SQL-DDL machine sufficient for the two migration scripts.  SQLite's
`ALTER TABLE ... ADD COLUMN` has no `IF NOT EXISTS` form: adding an existing
column is an error, and script execution stops at the first error. -/

structure TableSchema where
  name : String
  cols : List String
deriving DecidableEq

/-- Schema-level state of the store: data rows are irrelevant to the
migration claims, except that row inserts in the scripts are all
`INSERT OR IGNORE` / `INSERT OR REPLACE` into `sync_meta`, modelled on the
meta map. -/
structure SchemaState where
  tables : List TableSchema
  indexes : List String
  triggers : List String
  meta : List (String × String)
deriving DecidableEq

def hasTable (s : SchemaState) (n : String) : Bool :=
  s.tables.any (fun t => t.name == n)

def tableCols (s : SchemaState) (n : String) : List String :=
  ((s.tables.find? (fun t => t.name == n)).map (fun t => t.cols)).getD []

def schemaMetaLookup (s : SchemaState) (k : String) : Option String :=
  (s.meta.find? (fun p => p.1 == k)).map (fun p => p.2)

inductive SqlStmt where
  /-- `CREATE TABLE IF NOT EXISTS` (also used for `CREATE VIRTUAL TABLE
  IF NOT EXISTS`). -/
  | createTableIfNotExists (t : TableSchema)
  | createIndexIfNotExists (n : String)
  | createTriggerIfNotExists (n : String)
  | dropTriggerIfExists (n : String)
  | dropTableIfExists (n : String)
  /-- `ALTER TABLE t ADD COLUMN c` — unguarded; errors if `c` exists. -/
  | alterTableAddColumn (table col : String)
  | insertOrIgnoreMeta (key value : String)
  | insertOrReplaceMeta (key value : String)
  /-- A data `INSERT OR IGNORE` into an ordinary table (reference-data rows);
  idempotent by construction and invisible at schema level. -/
  | insertOrIgnoreRow (table : String)
deriving DecidableEq

def execStmt (s : SchemaState) : SqlStmt → Except String SchemaState
  | .createTableIfNotExists t =>
    if hasTable s t.name then .ok s
    else .ok { s with tables := s.tables ++ [t] }
  | .createIndexIfNotExists n =>
    if s.indexes.contains n then .ok s
    else .ok { s with indexes := s.indexes ++ [n] }
  | .createTriggerIfNotExists n =>
    if s.triggers.contains n then .ok s
    else .ok { s with triggers := s.triggers ++ [n] }
  | .dropTriggerIfExists n =>
    .ok { s with triggers := s.triggers.filter (fun m => !(m == n)) }
  | .dropTableIfExists n =>
    .ok { s with tables := s.tables.filter (fun t => !(t.name == n)) }
  | .alterTableAddColumn table col =>
    if !hasTable s table then .error ("no such table: " ++ table)
    else if (tableCols s table).contains col then
      .error ("duplicate column name: " ++ col)
    else
      .ok { s with tables := s.tables.map (fun t =>
        if t.name == table then { t with cols := t.cols ++ [col] } else t) }
  | .insertOrIgnoreMeta k v =>
    if s.meta.any (fun p => p.1 == k) then .ok s
    else .ok { s with meta := s.meta ++ [(k, v)] }
  | .insertOrReplaceMeta k v =>
    .ok { s with meta := (s.meta.filter (fun p => !(p.1 == k))) ++ [(k, v)] }
  | .insertOrIgnoreRow _ => .ok s

/-- Run a script; execution stops at the first failing statement, as
`db.exec` does. -/
def execScript : SchemaState → List SqlStmt → Except String SchemaState
  | s, [] => .ok s
  | s, stmt :: rest =>
    match execStmt s stmt with
    | .ok s1 => execScript s1 rest
    | .error e => .error e

/-- Continue a script execution after a previous (possibly failed) one. -/
def execScriptAfter (e : Except String SchemaState) (script : List SqlStmt) :
    Except String SchemaState :=
  match e with
  | .ok s => execScript s script
  | .error m => .error m

/-- The statements of `migrations/001_initial.sql`, in file order. -/
def migration001 : List SqlStmt :=
  [ .createTableIfNotExists ⟨"nodes",
      ["id", "figma_id", "name", "type", "parent_id", "page_id", "path",
       "depth", "component_key", "component_name", "daisyui_class",
       "daisyui_component", "daisyui_variant", "daisyui_size",
       "tailwind_classes", "data_testid", "x", "y", "width", "height",
       "content_hash", "last_synced"]⟩
  , .createTableIfNotExists ⟨"components",
      ["id", "key", "name", "category", "subcategory", "figma_id",
       "daisyui_class", "tailwind_base", "variants", "default_variant",
       "description", "usage_hint", "example_contexts", "clone_ready",
       "usage_count", "last_used", "last_synced"]⟩
  , .createTableIfNotExists ⟨"pages",
      ["id", "name", "node_count", "component_count", "frame_count",
       "summary", "main_sections", "last_synced"]⟩
  , .createTableIfNotExists ⟨"design_tokens",
      ["id", "name", "category", "figma_style_id", "value", "daisyui_var",
       "tailwind_class", "hex", "rgb", "hsl", "last_synced"]⟩
  , .createTableIfNotExists ⟨"variable_collections",
      ["id", "name", "modes", "default_mode_id", "variable_count",
       "last_synced"]⟩
  , .createTableIfNotExists ⟨"variables",
      ["id", "name", "collection_id", "resolved_type", "daisyui_name",
       "daisyui_category", "values_by_mode", "hex", "rgb", "description",
       "scopes", "last_synced"]⟩
  , .createTableIfNotExists ⟨"sync_meta", ["key", "value", "updated_at"]⟩
  , .createTableIfNotExists ⟨"nodes_fts",
      ["name", "path", "daisyui_class", "daisyui_component", "data_testid"]⟩
  , .createTableIfNotExists ⟨"components_fts",
      ["name", "category", "subcategory", "daisyui_class", "description",
       "usage_hint"]⟩
  , .createTableIfNotExists ⟨"variables_fts",
      ["name", "daisyui_name", "daisyui_category", "description"]⟩
  , .createIndexIfNotExists "idx_nodes_type"
  , .createIndexIfNotExists "idx_nodes_page"
  , .createIndexIfNotExists "idx_nodes_daisyui"
  , .createIndexIfNotExists "idx_nodes_daisyui_component"
  , .createIndexIfNotExists "idx_nodes_component_key"
  , .createIndexIfNotExists "idx_nodes_path"
  , .createIndexIfNotExists "idx_components_category"
  , .createIndexIfNotExists "idx_components_daisyui"
  , .createIndexIfNotExists "idx_components_key"
  , .createIndexIfNotExists "idx_tokens_category"
  , .createIndexIfNotExists "idx_tokens_daisyui"
  , .createIndexIfNotExists "idx_variables_collection"
  , .createIndexIfNotExists "idx_variables_type"
  , .createIndexIfNotExists "idx_variables_daisyui"
  , .createIndexIfNotExists "idx_variables_name"
  , .createTriggerIfNotExists "nodes_ai"
  , .createTriggerIfNotExists "nodes_ad"
  , .createTriggerIfNotExists "nodes_au"
  , .createTriggerIfNotExists "components_ai"
  , .createTriggerIfNotExists "components_ad"
  , .createTriggerIfNotExists "components_au"
  , .createTriggerIfNotExists "variables_ai"
  , .createTriggerIfNotExists "variables_ad"
  , .createTriggerIfNotExists "variables_au"
  , .insertOrIgnoreMeta "schema_version" "1.0"
  , .insertOrIgnoreMeta "created_at" "datetime-now"
  ]

/-- The statements of `migrations/002_enhanced_variables.sql`, in file order
(the 22 `tailwind_colors` palette inserts compressed with `replicate`; they
are all `INSERT OR IGNORE` data rows). -/
def migration002 : List SqlStmt :=
  [ .alterTableAddColumn "variables" "tailwind_name"
  , .alterTableAddColumn "variables" "tailwind_shade"
  , .alterTableAddColumn "variables" "color_system"
  , .alterTableAddColumn "variables" "semantic_role"
  , .alterTableAddColumn "variables" "token_type"
  , .alterTableAddColumn "variables" "css_variable"
  , .alterTableAddColumn "variables" "tailwind_class"
  , .alterTableAddColumn "variables" "is_alias"
  , .alterTableAddColumn "variables" "alias_target_id"
  , .alterTableAddColumn "variables" "hsl"
  , .alterTableAddColumn "variables" "oklch"
  , .alterTableAddColumn "variables" "contrast_ratio"
  , .alterTableAddColumn "variables" "usage_count"
  , .alterTableAddColumn "variables" "is_deprecated"
  , .createTableIfNotExists ⟨"variable_bindings",
      ["id", "node_id", "variable_id", "property", "property_index", "field",
       "bound_at", "last_verified"]⟩
  , .createTableIfNotExists ⟨"variable_aliases",
      ["id", "source_variable_id", "target_variable_id", "mode_id",
       "created_at"]⟩
  , .createTableIfNotExists ⟨"variable_mode_values",
      ["id", "variable_id", "mode_id", "mode_name", "raw_value", "hex",
       "rgb", "hsl", "oklch", "float_value", "string_value", "boolean_value",
       "is_alias", "alias_variable_id", "updated_at"]⟩
  , .createTableIfNotExists ⟨"tailwind_colors",
      ["id", "name", "shade", "hex", "rgb", "hsl", "oklch", "is_default"]⟩
  , .createTableIfNotExists ⟨"daisyui_colors",
      ["id", "name", "css_variable", "category", "description",
       "default_hex", "pairs_with", "usage_hint"]⟩
  , .createTableIfNotExists ⟨"token_categories",
      ["id", "name", "display_name", "description", "sort_order"]⟩
  , .insertOrIgnoreRow "token_categories"
  , .createIndexIfNotExists "idx_variables_tailwind"
  , .createIndexIfNotExists "idx_variables_color_system"
  , .createIndexIfNotExists "idx_variables_semantic_role"
  , .createIndexIfNotExists "idx_variables_token_type"
  , .createIndexIfNotExists "idx_variables_css_var"
  , .createIndexIfNotExists "idx_variables_is_alias"
  , .createIndexIfNotExists "idx_bindings_node"
  , .createIndexIfNotExists "idx_bindings_variable"
  , .createIndexIfNotExists "idx_bindings_property"
  , .createIndexIfNotExists "idx_aliases_source"
  , .createIndexIfNotExists "idx_aliases_target"
  , .createIndexIfNotExists "idx_mode_values_variable"
  , .createIndexIfNotExists "idx_mode_values_mode"
  , .createIndexIfNotExists "idx_tailwind_colors_name"
  , .createIndexIfNotExists "idx_tailwind_colors_hex"
  , .dropTriggerIfExists "variables_ai"
  , .dropTriggerIfExists "variables_ad"
  , .dropTriggerIfExists "variables_au"
  , .dropTableIfExists "variables_fts"
  , .createTableIfNotExists ⟨"variables_fts",
      ["name", "daisyui_name", "daisyui_category", "tailwind_name",
       "tailwind_shade", "color_system", "semantic_role", "token_type",
       "description"]⟩
  , .createTriggerIfNotExists "variables_ai"
  , .createTriggerIfNotExists "variables_ad"
  , .createTriggerIfNotExists "variables_au"
  ]
  ++ List.replicate 22 (.insertOrIgnoreRow "tailwind_colors")
  ++ [ .insertOrIgnoreRow "daisyui_colors"
     , .insertOrReplaceMeta "schema_version" "2.0"
     ]

/-- `CacheManager.runMigrations` (`part_001` lines 220-232): it reads and
executes only `001_initial.sql`; `002_enhanced_variables.sql` is never
touched.  (Invoked from `initialize` after opening the connection.) -/
def runMigrations (s : SchemaState) : Except String SchemaState :=
  execScript s migration001

def emptySchema : SchemaState := ⟨[], [], [], []⟩

/-! ## Sync/invalidation controller (`search-tools.ts` lines 30-34, 415-485)

The module-level mutable state plus the `sync_meta` keys that `ensureIndex`
consults.  Timestamps are milliseconds (`Date.now()`).  The heavy table
writes of `buildIndexImpl` are abstracted into an outcome oracle: what
matters to the controller claims is which control fields each completion
path updates.  In the source, `lastSyncAttempt = Date.now()` is executed
only at the end of `buildIndexImpl`'s `try` block, immediately before the
`success: true` return — the `catch` path returns without touching it. -/

structure SyncCtrlState where
  syncInProgress : Bool
  lastSyncAttempt : Nat
  indexInvalidated : Bool
  /-- `sync_meta['index_invalidated'] === 'true'`. -/
  metaIndexInvalidated : Bool
  /-- Parsed `sync_meta['last_full_sync']`; `none` (missing key) makes
  `lastSyncTime` zero, as `lastSync ? ... : 0` does. -/
  metaLastFullSync : Option Nat
  /-- `stats.node_count`. -/
  nodeCount : Nat
deriving DecidableEq

/-- How one invocation of `buildIndexImpl` ends: a `success: true` result, a
`success: false` result (its internal `catch`), or a thrown exception
(caught by `ensureIndex`'s own `catch`). -/
inductive BuildOutcome where
  | success
  | failure
  | thrown
deriving DecidableEq

structure EnsureResult where
  ready : Bool
  autoBuilt : Bool
  message : Option String
deriving DecidableEq

def INDEX_STALE_THRESHOLD_MS : Nat := 5 * 60 * 1000

/-- `ensureIndex` (`search-tools.ts` lines 415-485).  Returns the result, the
post-state, and the number of times the ingestion pipeline
(`buildIndexImpl`) was invoked.  `connected` is `isConnected()` and `now` is
`Date.now()`; subtractions compare JS number differences, which agrees with
truncated `Nat` subtraction for these strict `>` tests against positive
constants. -/
def ensureIndex (connected : Bool) (now : Nat) (outcome : BuildOutcome)
    (s : SyncCtrlState) : EnsureResult × SyncCtrlState × Nat :=
  if s.syncInProgress then
    (⟨false, false, some "Sync already in progress"⟩, s, 0)
  else
    let lastSyncTime := s.metaLastFullSync.getD 0
    let hasNodes := decide (0 < s.nodeCount)
    let wasInvalidated := s.indexInvalidated || s.metaIndexInvalidated
    let isStale := decide (INDEX_STALE_THRESHOLD_MS < now - lastSyncTime)
    let shouldSync := !hasNodes || wasInvalidated ||
      (isStale && decide (60000 < now - s.lastSyncAttempt))
    if !shouldSync && hasNodes then
      (⟨true, false, none⟩, s, 0)
    else if !connected then
      if hasNodes then
        (⟨true, false, some "Using cached index (not connected to Figma)"⟩, s, 0)
      else
        (⟨false, false, some "Not connected to Figma. Use join_channel first."⟩, s, 0)
    else
      match outcome with
      | .success =>
        (⟨true, true, some "Auto-indexed"⟩,
         { s with
            syncInProgress := false
            lastSyncAttempt := now
            metaLastFullSync := some now
            indexInvalidated := false
            metaIndexInvalidated := false },
         1)
      | .failure =>
        (⟨hasNodes, false, some "build error"⟩,
         { s with syncInProgress := false }, 1)
      | .thrown =>
        (⟨hasNodes, false, some "exception"⟩,
         { s with syncInProgress := false }, 1)

/-! ## Full-text search (`part_001` lines 451-493)

`searchNodes` builds
`query.replace(/['"]/g, '').split(/\s+/).map(t => '"' + t + '"*').join(' OR ')`
and runs it against the FTS5 table `nodes_fts` (columns `name`, `path`,
`daisyui_class`, `daisyui_component`, `data_testid`), ordered by the engine's
`bm25` relevance ascending, limited to `options.limit || 20` rows.

The FTS5 side is modelled by its documented semantics: the `unicode61`
tokenizer splits each column into lowercased alphanumeric runs; a quoted
phrase with a trailing `*` matches a column iff the phrase's tokens occur
consecutively with the last one as a prefix of the matched token; a phrase
that contains no tokens at all matches nothing; `OR` is disjunction.  The
`bm25` score itself is engine-internal and enters the model as an arbitrary
scoring function. -/

def isQuoteChar (c : Char) : Bool :=
  c == Char.ofNat 34 || c == Char.ofNat 39

/-- `query.replace(/['"]/g, '')`. -/
def stripQuotes (s : String) : String :=
  String.mk (s.data.filter (fun c => !isQuoteChar c))

mutual
/-- `split(/\s+/)` state: inside a (possibly empty) token. -/
def splitWsTok : List Char → List Char → List (List Char)
  | [], acc => [acc.reverse]
  | c :: cs, acc =>
    if c.isWhitespace then acc.reverse :: splitWsSep cs
    else splitWsTok cs (c :: acc)
/-- `split(/\s+/)` state: inside a separator run. -/
def splitWsSep : List Char → List (List Char)
  | [] => [[]]
  | c :: cs =>
    if c.isWhitespace then splitWsSep cs
    else splitWsTok cs [c]
end

/-- JavaScript `s.split(/\s+/)`: maximal whitespace runs separate the tokens;
a leading or trailing run contributes an empty token, and the empty string
splits to `[""]`. -/
def jsSplitWs (s : String) : List String :=
  (splitWsTok s.data []).map String.mk

/-- The FTS `MATCH` expression string built by `searchNodes` /
`searchComponents` / `searchVariables`. -/
def buildFtsQuery (q : String) : String :=
  String.intercalate " OR "
    ((jsSplitWs (stripQuotes q)).map (fun t => "\"" ++ t ++ "\"*"))

/-- `unicode61` tokenizer: maximal alphanumeric runs, lowercased. -/
def ftsTokenizeGo : List Char → List Char → List (List Char)
  | [], acc => if acc.isEmpty then [] else [acc.reverse]
  | c :: cs, acc =>
    if c.isAlphanum then ftsTokenizeGo cs (c.toLower :: acc)
    else if acc.isEmpty then ftsTokenizeGo cs []
    else acc.reverse :: ftsTokenizeGo cs []

def ftsTokenize (s : String) : List String :=
  (ftsTokenizeGo s.data []).map String.mk

/-- String stem test over the character lists (equivalent to
`String.isPrefixOf`, stated on `.data` so that it evaluates by reduction). -/
def strStartsWith (p s : String) : Bool :=
  p.data.isPrefixOf s.data

/-- Does the phrase match starting at the head of the token list?  The last
phrase token matches as a stem (the trailing `*`), earlier ones exactly. -/
def phraseHere : List String → List String → Bool
  | [], _ => true
  | _ :: _, [] => false
  | [p], t :: _ => strStartsWith p t
  | p :: ps, t :: ts => p == t && phraseHere ps ts

/-- `"phrase"*` against one column's token list: some starting position
matches; a token-free phrase matches nothing. -/
def phraseMatches (ph : List String) (ts : List String) : Bool :=
  !ph.isEmpty && ts.tails.any (fun suf => phraseHere ph suf)

/-- The tokenized phrases of the constructed query, one per
whitespace-separated fragment of the de-quoted input. -/
def queryPhrases (q : String) : List (List String) :=
  (jsSplitWs (stripQuotes q)).map ftsTokenize

/-- The indexed columns of `nodes_fts` for a row (kept in sync by the
`nodes_ai`/`nodes_au`/`nodes_ad` triggers). -/
def nodeFtsColumns (r : NodeRow) : List String :=
  [r.fields.name, r.fields.path, r.fields.daisyui_class.getD "",
   r.fields.daisyui_component.getD "", r.fields.data_testid.getD ""]

/-- `nodes_fts MATCH ftsQuery` for one row: some phrase of the disjunction
matches some indexed column. -/
def ftsRowMatch (q : String) (r : NodeRow) : Bool :=
  (queryPhrases q).any (fun ph =>
    (nodeFtsColumns r).any (fun col => phraseMatches ph (ftsTokenize col)))

/-- `searchNodes` options; `category` is accepted by the TypeScript signature
but never used in the SQL. -/
structure SearchOpts where
  type_ : Option String
  category : Option String
  pageId : Option String
  limit : Option Nat
deriving DecidableEq

/-- Row filter of the assembled SQL: the `MATCH` plus the optional
`AND n.type = ?` and `AND n.page_id = ?`. -/
def searchRowKeep (q : String) (opts : SearchOpts) (r : NodeRow) : Bool :=
  ftsRowMatch q r &&
    (match opts.type_ with
     | some ty => r.fields.type_ == ty
     | none => true) &&
    (match opts.pageId with
     | some p => r.fields.page_id == p
     | none => true)

/-- `CacheManager.searchNodes`, with the engine's `bm25` relevance given as
the scoring function `score`: keep the matching rows, order by relevance
ascending, return the first `options.limit || 20`. -/
def searchNodes (score : NodeRow → Int) (q : String) (opts : SearchOpts)
    (t : List NodeRow) : List (NodeRow × Int) :=
  let lim := opts.limit.getD 20
  let hits := (t.filter (searchRowKeep q opts)).map (fun r => (r, score r))
  (hits.mergeSort (fun a b => decide (a.2 ≤ b.2))).take lim

/-! ## Ingestion pipeline: the page loop of `buildIndexImpl`
(`search-tools.ts` lines 104-231)

For each page: `upsertPage` with placeholder counts first (the code comment
says "Insert page FIRST to satisfy foreign key constraint"), then the
recursive `indexNode` walk upserting every node with `page_id: page.id`,
then a second `upsertPage` with the recomputed counts.

External collaborators (`detectDaisyUIComponent`, `getComponentCategory`,
`COMPONENT_USAGE_HINTS`, the layout-to-Tailwind mapping and the base64
content fingerprint) are out of the spec's scope; they enter the model as
opaque parameter functions whose outputs are stored verbatim. -/

/-- The subtree data returned by `get_node_info`, as far as the walk reads
it. -/
inductive FigmaNode where
  | node (id name type_ : String) (parentId componentKey : Option String)
      (x y width height : Option Int) (children : List FigmaNode)

def FigmaNode.nodeId : FigmaNode → String
  | .node i _ _ _ _ _ _ _ _ _ => i

def FigmaNode.nodeName : FigmaNode → String
  | .node _ nm _ _ _ _ _ _ _ _ => nm

def FigmaNode.nodeType : FigmaNode → String
  | .node _ _ ty _ _ _ _ _ _ _ => ty

def FigmaNode.parentIdOf : FigmaNode → Option String
  | .node _ _ _ pid _ _ _ _ _ _ => pid

def FigmaNode.componentKeyOf : FigmaNode → Option String
  | .node _ _ _ _ ck _ _ _ _ _ => ck

def FigmaNode.xOf : FigmaNode → Option Int
  | .node _ _ _ _ _ v _ _ _ _ => v

def FigmaNode.yOf : FigmaNode → Option Int
  | .node _ _ _ _ _ _ v _ _ _ => v

def FigmaNode.widthOf : FigmaNode → Option Int
  | .node _ _ _ _ _ _ _ v _ _ => v

def FigmaNode.heightOf : FigmaNode → Option Int
  | .node _ _ _ _ _ _ _ _ v _ => v

/-- Result shape of `detectDaisyUIComponent`. -/
structure DaisyMapping where
  cls : String
  component : String
  variant : Option String
  size : Option String
deriving DecidableEq

/-- The opaque external collaborators used inside `indexNode`. -/
structure DeriveFns where
  daisyDetect : String → String → Option DaisyMapping
  componentCategory : String → String → String
  usageHintOf : String → Option (String × String)
  tailwindClassesOf : FigmaNode → Option String
  hashOf : FigmaNode → String

/-- JavaScript `v || null` on an optional string: absent and `""` both give
null. -/
def jsStrOrNull (o : Option String) : Option String :=
  match o with
  | some s => if s == "" then none else some s
  | none => none

/-- JavaScript `v || null` on an optional number: absent and `0` both give
null. -/
def jsNumOrNull (o : Option Int) : Option Int :=
  match o with
  | some v => if v == 0 then none else some v
  | none => none

/-- `parentPath.split('/').pop() || ''`. -/
def lastPathSegment (p : String) : String :=
  (((p.splitOn "/").getLast?).map id).getD ""

mutual
/-- `data-testid` generation, keep state: lowercased alphanumerics pass
through, a run of anything else becomes one dash
(`replace(/[^a-z0-9]+/g, '-')` after `toLowerCase()`). -/
def testidKeep : List Char → List Char
  | [] => []
  | c :: cs =>
    if c.isLower || c.isDigit then c :: testidKeep cs
    else Char.ofNat 45 :: testidSkip cs
/-- `data-testid` generation, inside a collapsed run. -/
def testidSkip : List Char → List Char
  | [] => []
  | c :: cs =>
    if c.isLower || c.isDigit then c :: testidKeep cs
    else testidSkip cs
end

/-- `replace(/^-|-$/g, '')`: one leading and one trailing dash removed. -/
def trimEdgeDashes (l : List Char) : List Char :=
  let l1 := match l with
    | c :: cs => if c == Char.ofNat 45 then cs else l
    | [] => []
  match l1.getLast? with
  | some c => if c == Char.ofNat 45 then l1.dropLast else l1
  | none => l1

/-- The generated test id:
`nodePath.toLowerCase().replace(/[^a-z0-9]+/g, '-').replace(/^-|-$/g, '').substring(0, 64)`. -/
def dataTestidOf (nodePath : String) : String :=
  String.mk ((trimEdgeDashes (testidKeep nodePath.toLower.data)).take 64)

/-- `JSON.stringify` of a list of plain names. -/
def jsonStrArray (l : List String) : String :=
  "[" ++ String.intercalate "," (l.map (fun s => "\"" ++ s ++ "\"")) ++ "]"

/-- The record passed to `cache.upsertNode` inside `indexNode`
(`search-tools.ts` lines 151-172). -/
def mkWalkInput (fns : DeriveFns) (pageId parentPath nodePath : String)
    (depth : Nat) (n : FigmaNode) : NodeInput :=
  let daisy := fns.daisyDetect n.nodeName (lastPathSegment parentPath)
  { figma_id := n.nodeId
    name := n.nodeName
    type_ := n.nodeType
    parent_id := n.parentIdOf
    page_id := pageId
    path := nodePath
    depth := depth
    component_key := n.componentKeyOf
    component_name := if n.nodeType == "COMPONENT" then some n.nodeName else none
    daisyui_class := jsStrOrNull (daisy.map (fun d => d.cls))
    daisyui_component := jsStrOrNull (daisy.map (fun d => d.component))
    daisyui_variant := jsStrOrNull (daisy.bind (fun d => d.variant))
    daisyui_size := jsStrOrNull (daisy.bind (fun d => d.size))
    tailwind_classes := fns.tailwindClassesOf n
    data_testid := some (dataTestidOf nodePath)
    x := jsNumOrNull n.xOf
    y := jsNumOrNull n.yOf
    width := jsNumOrNull n.widthOf
    height := jsNumOrNull n.heightOf
    content_hash := some (fns.hashOf n) }

/-- The record passed to `cache.upsertComponent` for COMPONENT nodes with a
DaisyUI mapping (`search-tools.ts` lines 177-195). -/
def mkWalkComponent (fns : DeriveFns) (n : FigmaNode) (d : DaisyMapping) :
    ComponentInput :=
  { key := n.nodeId
    name := n.nodeName
    category := fns.componentCategory n.nodeName ""
    subcategory := jsStrOrNull d.variant
    figma_id := some n.nodeId
    daisyui_class := d.cls
    tailwind_base := none
    variants := none
    default_variant := none
    description := some (d.component ++ " component")
    usage_hint := jsStrOrNull ((fns.usageHintOf d.component).map (fun h => h.1))
    example_contexts := (fns.usageHintOf d.component).map (fun h => h.2)
    clone_ready := true }

/-- The recursive `indexNode` walk over a list of sibling subtrees: upsert
the node (always with `page_id := pageId`), upsert a component row for
COMPONENT nodes with a mapping, then recurse into the children with
`depth + 1`, then continue with the remaining siblings. -/
def walkNodes (now : Nat) (fns : DeriveFns) (pageId : String) :
    List FigmaNode → String → Nat → CacheState → CacheState
  | [], _, _, st => st
  | .node i nm ty pid ck px py pw phh cs :: rest, parentPath, depth, st =>
    let n : FigmaNode := .node i nm ty pid ck px py pw phh cs
    let nodePath := if parentPath == "" then nm else parentPath ++ "/" ++ nm
    let daisy := fns.daisyDetect nm (lastPathSegment parentPath)
    let nodes1 :=
      upsertNode now (mkWalkInput fns pageId parentPath nodePath depth n)
        st.nodes
    let st1 : CacheState := { st with nodes := nodes1 }
    let st2 : CacheState :=
      match daisy with
      | some d =>
        if ty == "COMPONENT" then
          let comps1 := upsertComponent now (mkWalkComponent fns n d) st1.components
          { st1 with components := comps1 }
        else st1
      | none => st1
    let st3 := walkNodes now fns pageId cs nodePath (depth + 1) st2
    walkNodes now fns pageId rest parentPath depth st3

/-- `SELECT * FROM nodes WHERE type = ? AND page_id = ? LIMIT ?`
(`CacheManager.getNodesByType`, default limit 100). -/
def getNodesByType (ty pid : String) (lim : Nat) (t : List NodeRow) :
    List NodeRow :=
  (t.filter (fun r => r.fields.type_ == ty && r.fields.page_id == pid)).take lim

/-- What `buildIndexImpl` knows about one page from `get_document_info` plus
the page's children from `get_node_info`. -/
structure PageMeta where
  id : String
  name : String
deriving DecidableEq

/-- One iteration of the page loop: placeholder `upsertPage`, the node walk
(children start at `parentPath = page.name`, `depth = 1`), then the final
`upsertPage` with counts recomputed from the store (via `getNodesByType`
with its default limit of 100). -/
def placeholderPage (pg : PageMeta) : PageInput :=
  { id := pg.id, name := pg.name, node_count := 0, component_count := 0,
    frame_count := 0, summary := some ("Page: " ++ pg.name),
    main_sections := some "[]" }

def syncPage (now : Nat) (fns : DeriveFns) (st : CacheState) (pg : PageMeta)
    (children : List FigmaNode) : CacheState :=
  let st1 : CacheState :=
    { st with pages := upsertPage now (placeholderPage pg) st.pages }
  let st2 := walkNodes now fns pg.id children pg.name 1 st1
  let nodeCount := (getNodesByType "FRAME" pg.id 100 st2.nodes).length
  let componentCount := (getNodesByType "COMPONENT" pg.id 100 st2.nodes).length
  let frameCount := (getNodesByType "FRAME" pg.id 100 st2.nodes).length
  let mainSections :=
    (children.filter (fun c => c.nodeType == "FRAME")).map
      (fun c => c.nodeName)
  let finalPage : PageInput :=
    { id := pg.id, name := pg.name, node_count := nodeCount,
      component_count := componentCount, frame_count := frameCount,
      summary := some ("Page with " ++ toString frameCount ++
        " frames and " ++ toString componentCount ++ " components"),
      main_sections := some (jsonStrArray mainSections) }
  { st2 with pages := upsertPage now finalPage st2.pages }

/-- The table-writing portion of `buildIndexImpl`: optional `clearAll` on
`forceRebuild`, then the page loop.  (The subsequent variable phase touches
only the variable tables and is best-effort; the closing
`setMeta('last_full_sync', ...)` / `setMeta('document_name', ...)` writes
are included.) -/
def buildIndexPages (now : Nat) (fns : DeriveFns) (docName : String)
    (doc : List (PageMeta × List FigmaNode)) (forceRebuild : Bool)
    (st : CacheState) : CacheState :=
  let st0 := if forceRebuild then clearAll now st else st
  let stN := doc.foldl (fun acc pr => syncPage now fns acc pr.1 pr.2) st0
  let meta1 := setMeta now "last_full_sync" (toString now) stN.sync_meta
  let meta2 := setMeta now "document_name" docName meta1
  { stN with sync_meta := meta2 }

/-- Referential integrity: every node row's `page_id` names an existing page
row. -/
def RefIntegrity (st : CacheState) : Prop :=
  ∀ r ∈ st.nodes, ∃ p ∈ st.pages, p.input.id = r.fields.page_id

/-! # Theorems -/

/-- `optFieldGt` agrees with reading an absent counter as zero. -/
theorem optFieldGt_iff (o : Option Nat) (k : Nat) :
    optFieldGt o k = true ↔ k < o.getD 0 := by
  cases o with
  | none => simp [optFieldGt]
  | some n =>
    simp only [optFieldGt, Option.getD_some, Bool.and_eq_true, bne_iff_ne,
      ne_eq, decide_eq_true_eq]
    omega

/-- C2: the invalidation flag is set iff the notification is a
`document_change` and its payload shows a node creation, a node deletion, or
more than five property changes; in particular `propertyChanges = 3` alone
does not invalidate, `propertyChanges = 6` does, and non-document
notifications (selection, page focus) never do.  The handler writes the flag
and the `sync_meta` markers exactly when this condition holds. -/
theorem invalidation_threshold :
    (∀ n : ChangeNotification,
      shouldInvalidate n = true ↔
        (n.changeType = "document_change" ∧
          (0 < n.details.nodeCreations.getD 0 ∨
           0 < n.details.nodeDeletions.getD 0 ∨
           5 < n.details.propertyChanges.getD 0))) ∧
    shouldInvalidate ⟨"document_change", ⟨some 0, some 0, some 3⟩, "t0"⟩ = false ∧
    shouldInvalidate ⟨"document_change", ⟨some 0, some 0, some 6⟩, "t0"⟩ = true ∧
    (∀ (ct : String) (d : ChangeDetails) (ts : String),
      ct ≠ "document_change" → shouldInvalidate ⟨ct, d, ts⟩ = false) ∧
    (∀ (n : ChangeNotification) (s : InvalState),
      shouldInvalidate n = false → onChangeNotificationHandler n s = s) ∧
    (∀ (n : ChangeNotification) (s : InvalState),
      shouldInvalidate n = true →
        (onChangeNotificationHandler n s).indexInvalidated = true ∧
        (onChangeNotificationHandler n s).metaIndexInvalidated = "true") := by
  refine ⟨?_, by decide, by decide, ?_, ?_, ?_⟩
  · intro n
    simp only [shouldInvalidate, Bool.and_eq_true, Bool.or_eq_true,
      beq_iff_eq, optFieldGt_iff]
    tauto
  · intro ct d ts hct
    simp [shouldInvalidate, hct]
  · intro n s h
    simp [onChangeNotificationHandler, h]
  · intro n s h
    simp [onChangeNotificationHandler, h]

/-- Witness for `invalidation_threshold` at a concrete non-document
notification. -/
theorem invalidation_threshold_witness :
    shouldInvalidate ⟨"selection_change", ⟨some 9, some 9, some 9⟩, "t1"⟩ = false :=
  invalidation_threshold.2.2.2.1 "selection_change" ⟨some 9, some 9, some 9⟩ "t1"
    (by decide)

/-- C10: `incrementComponentUsage key` is a silent no-op when no row has the
key (nothing created, nothing thrown), never changes the number of rows,
leaves every non-matching row untouched, and turns each matching row into
the same row with `usage_count` one higher and `last_used` refreshed. -/
theorem incrementComponentUsage_spec (now : Nat) (key : String)
    (t : List ComponentRow) :
    ((∀ r ∈ t, r.input.key ≠ key) → incrementComponentUsage now key t = t) ∧
    (incrementComponentUsage now key t).length = t.length ∧
    (∀ r ∈ t, r.input.key ≠ key → r ∈ incrementComponentUsage now key t) ∧
    (∀ r ∈ t, r.input.key = key →
      { r with usage_count := r.usage_count + 1, last_used := some now } ∈
        incrementComponentUsage now key t) := by
  refine ⟨?_, ?_, ?_, ?_⟩
  · intro h
    have : ∀ r ∈ t,
        (if r.input.key == key then
          { r with usage_count := r.usage_count + 1, last_used := some now }
         else r) = r := by
      intro r hr
      simp [h r hr]
    simpa [incrementComponentUsage] using List.map_congr_left this
  · simp [incrementComponentUsage]
  · intro r hr hne
    have := List.mem_map_of_mem (fun r : ComponentRow =>
      if r.input.key == key then
        { r with usage_count := r.usage_count + 1, last_used := some now }
      else r) hr
    simpa [incrementComponentUsage, hne] using this
  · intro r hr heq
    have := List.mem_map_of_mem (fun r : ComponentRow =>
      if r.input.key == key then
        { r with usage_count := r.usage_count + 1, last_used := some now }
      else r) hr
    simpa [incrementComponentUsage, heq] using this

/-- Witness for `incrementComponentUsage_spec`: a one-row table whose key
does not match is returned unchanged. -/
theorem incrementComponentUsage_spec_witness :
    incrementComponentUsage 7 "missing"
      [⟨1, ⟨"k1", "Button", "buttons", none, none, "btn", none, none, none,
        none, none, none, true⟩, 3, none, 5⟩] =
      [⟨1, ⟨"k1", "Button", "buttons", none, none, "btn", none, none, none,
        none, none, none, true⟩, 3, none, 5⟩] :=
  (incrementComponentUsage_spec 7 "missing" _).1 (by decide)

/-- C7: while `syncInProgress` is set, `ensureIndex` answers "Sync already in
progress" and invokes the ingestion pipeline zero times; and starting from a
clear guard, the guard is clear again after the call no matter how the build
ends (success, returned failure, or thrown exception). -/
theorem syncInProgress_guard :
    (∀ (connected : Bool) (now : Nat) (outcome : BuildOutcome)
        (s : SyncCtrlState), s.syncInProgress = true →
      ensureIndex connected now outcome s =
        (⟨false, false, some "Sync already in progress"⟩, s, 0)) ∧
    (∀ (connected : Bool) (now : Nat) (outcome : BuildOutcome)
        (s : SyncCtrlState), s.syncInProgress = false →
      ((ensureIndex connected now outcome s).2.1).syncInProgress = false) := by
  constructor
  · intro connected now outcome s h
    simp [ensureIndex, h]
  · intro connected now outcome s h
    unfold ensureIndex
    split
    · next hc => simp [h] at hc
    · (repeat' split) <;> simp [h] <;> (try (split_ifs <;> simp [h]))

/-- Witness for `syncInProgress_guard`: both conjuncts at a concrete state. -/
theorem syncInProgress_guard_witness :
    ensureIndex true 1000 .success ⟨true, 0, false, false, none, 0⟩ =
      (⟨false, false, some "Sync already in progress"⟩,
        ⟨true, 0, false, false, none, 0⟩, 0) ∧
    ((ensureIndex true 1000 .thrown ⟨false, 0, false, false, none, 3⟩).2.1).syncInProgress = false :=
  ⟨syncInProgress_guard.1 true 1000 .success _ (by decide),
   syncInProgress_guard.2 true 1000 .thrown _ (by decide)⟩

/-- C6 counterexample: `setDocumentId` does not *strip* disallowed
characters — it replaces them with `_`.  For the id `"a.b"` the computed
path is `figma-index-a_b.db`, not the `figma-index-ab.db` that stripping
would give; moreover for `"a:b"`, whose derived path coincides with that of
`"a.b"`, the call is not a no-op: it closes the open connection. -/
theorem setDocumentId_strip_counterexample :
    (setDocumentId "/cache" "a.b" ⟨none, false, "/cache/figma-index.db"⟩).dbPath =
      "/cache/figma-index-a_b.db" ∧
    "/cache" ++ "/figma-index-" ++ sanitizeDocIdSpecStrip "a.b" ++ ".db" =
      "/cache/figma-index-ab.db" ∧
    (setDocumentId "/cache" "a.b" ⟨none, false, "/cache/figma-index.db"⟩).dbPath ≠
      "/cache" ++ "/figma-index-" ++ sanitizeDocIdSpecStrip "a.b" ++ ".db" ∧
    dbPathFor "/cache" "a:b" = dbPathFor "/cache" "a.b" ∧
    (setDocumentId "/cache" "a:b"
      ⟨some "a.b", true, "/cache/figma-index-a_b.db"⟩).dbOpen = false := by
  refine ⟨by decide, by decide, by decide, by decide, by decide⟩

/-- C6 (amended): `setDocumentId X` derives the safe id by *replacing* each
character outside `[a-zA-Z0-9_-]` with `_` and targets
`<cache-dir>/figma-index-<safe-id>.db`; it is a no-op exactly when the very
same document id is already active with an open connection; in every other
case the previous connection is closed (the new one opens lazily), so the
post-state is open only if the call was that no-op — two documents'
connections are never open at once. -/
theorem setDocumentId_spec (cacheDir d : String) (s : PartitionState) :
    (s.currentDocumentId = some d ∧ s.dbOpen = true →
      setDocumentId cacheDir d s = s) ∧
    (¬(s.currentDocumentId = some d ∧ s.dbOpen = true) →
      setDocumentId cacheDir d s =
        ⟨some d, false, cacheDir ++ "/figma-index-" ++ sanitizeDocId d ++ ".db"⟩) ∧
    ((setDocumentId cacheDir d s).dbOpen = true →
      setDocumentId cacheDir d s = s ∧ s.dbOpen = true) := by
  obtain ⟨cur, opn, pth⟩ := s
  have main : (cur = some d ∧ opn = true →
      setDocumentId cacheDir d ⟨cur, opn, pth⟩ = ⟨cur, opn, pth⟩) ∧
      (¬(cur = some d ∧ opn = true) →
        setDocumentId cacheDir d ⟨cur, opn, pth⟩ =
          ⟨some d, false, cacheDir ++ "/figma-index-" ++ sanitizeDocId d ++ ".db"⟩) := by
    constructor
    · rintro ⟨h1, h2⟩
      subst h1; subst h2
      simp [setDocumentId]
    · intro hn
      by_cases h1 : cur = some d
      · have h2 : opn = false := by
          cases opn
          · rfl
          · exact absurd ⟨h1, rfl⟩ hn
        subst h1; subst h2
        simp [setDocumentId, dbPathFor]
      · cases opn <;>
          simp [setDocumentId, dbPathFor, h1, Option.some_inj]
  refine ⟨main.1, main.2, ?_⟩
  intro hopen
  by_cases hc : cur = some d ∧ opn = true
  · exact ⟨main.1 hc, hc.2⟩
  · rw [main.2 hc] at hopen
    exact absurd hopen (by simp)

/-- Witness for `setDocumentId_spec`: the no-op case and the switch case at
concrete states. -/
theorem setDocumentId_spec_witness :
    setDocumentId "/c" "doc1" ⟨some "doc1", true, "/c/figma-index-doc1.db"⟩ =
      ⟨some "doc1", true, "/c/figma-index-doc1.db"⟩ ∧
    setDocumentId "/c" "doc2" ⟨some "doc1", true, "/c/figma-index-doc1.db"⟩ =
      ⟨some "doc2", false, "/c" ++ "/figma-index-" ++ sanitizeDocId "doc2" ++ ".db"⟩ :=
  ⟨(setDocumentId_spec "/c" "doc1" _).1 (by exact ⟨rfl, rfl⟩),
   (setDocumentId_spec "/c" "doc2" _).2.1 (by simp)⟩

/-- The concrete controller state for the staleness scenario: no sync in
flight, never any attempt (`lastSyncAttempt = 0`), no invalidation, a
`last_full_sync` of `0` (far older than the 5-minute threshold at the times
used), five rows present. -/
def staleIdleState : SyncCtrlState :=
  { syncInProgress := false
    lastSyncAttempt := 0
    indexInvalidated := false
    metaIndexInvalidated := false
    metaLastFullSync := some 0
    nodeCount := 5 }

/-- C3, evaluated on the code: with rows present, a stale `last_full_sync`
and no invalidation, a call at t=400000 triggers exactly one sync attempt;
but when that attempt *fails*, `lastSyncAttempt` is left untouched (it is
assigned only on `buildIndexImpl`'s success path), so a second call 10
seconds later triggers another attempt — not the zero the spec's 60-second
rate limit promises.  After a *successful* attempt the second call does
trigger zero attempts. -/
theorem ensureIndex_failed_attempt_not_rate_limited :
    (ensureIndex true 400000 .failure staleIdleState).2.2 = 1 ∧
    ((ensureIndex true 400000 .failure staleIdleState).2.1).lastSyncAttempt = 0 ∧
    (ensureIndex true 410000 .failure
      ((ensureIndex true 400000 .failure staleIdleState).2.1)).2.2 = 1 ∧
    (ensureIndex true 410000 .failure
      ((ensureIndex true 400000 .success staleIdleState).2.1)).2.2 = 0 := by
  refine ⟨by decide, by decide, by decide, by decide⟩

/-- C8 counterexample: store initialization (`runMigrations`) executes only
`001_initial.sql` — afterwards the 002 artifacts are absent (no
`variable_mode_values` table, no `tailwind_name` column) and
`schema_version` still reads `1.0`, contradicting "applies 001 then 002". -/
theorem runMigrations_skips_002 :
    ((runMigrations emptySchema).toOption.map
      (fun s => hasTable s "variable_mode_values")) = some false ∧
    ((runMigrations emptySchema).toOption.map
      (fun s => (tableCols s "variables").contains "tailwind_name")) = some false ∧
    ((runMigrations emptySchema).toOption.map
      (fun s => schemaMetaLookup s "schema_version")) = some (some "1.0") :=
  ⟨rfl, rfl, rfl⟩

/-- C8 (amended): initialization applies only migration 001; 001 is
idempotent (re-running it on the store it built is the identity) and records
`schema_version = 1.0`; migration 002, were it applied, would bump the
version to `2.0` the first time but is *not* idempotent — re-applying it
fails on its first unguarded `ALTER TABLE variables ADD COLUMN`. -/
theorem migrations_behaviour :
    execScriptAfter (runMigrations emptySchema) migration001 =
      runMigrations emptySchema ∧
    ((runMigrations emptySchema).toOption.map
      (fun s => schemaMetaLookup s "schema_version")) = some (some "1.0") ∧
    ((execScriptAfter (runMigrations emptySchema) migration002).toOption.map
      (fun s => schemaMetaLookup s "schema_version")) = some (some "2.0") ∧
    execScriptAfter (execScriptAfter (runMigrations emptySchema) migration002)
        migration002 =
      Except.error "duplicate column name: tailwind_name" :=
  ⟨rfl, rfl, rfl, rfl⟩

/-- A failed `any` means no element satisfies the predicate. -/
theorem any_false_no_match {α : Type} (p : α → Bool) (l : List α)
    (h : ¬l.any p = true) : ∀ a ∈ l, p a = false := by
  intro a ha
  cases hpa : p a
  · rfl
  · exact absurd (List.any_eq_true.mpr ⟨a, ha, hpa⟩) h

/-- `find?` commutes with a row transformation that does not change which
rows satisfy the predicate. -/
theorem find?_map_of_pred (p : MetaRow → Bool) (f : MetaRow → MetaRow)
    (hf : ∀ r, p (f r) = p r) :
    ∀ m : List MetaRow, (m.map f).find? p = (m.find? p).map f := by
  intro m
  induction m with
  | nil => rfl
  | cons r rs ih =>
    by_cases h : p r = true
    · rw [List.map_cons, List.find?_cons_of_pos _ (by rw [hf]; exact h),
        List.find?_cons_of_pos _ h]
      rfl
    · rw [List.map_cons,
        List.find?_cons_of_neg _ (by rw [hf]; simpa using h),
        List.find?_cons_of_neg _ (by simpa using h)]
      exact ih

/-- `find?` over an append searches left to right. -/
theorem metaFind?_append (p : MetaRow → Bool) (l1 l2 : List MetaRow) :
    (l1 ++ l2).find? p = (l1.find? p).or (l2.find? p) := by
  induction l1 with
  | nil => simp
  | cons r rs ih =>
    by_cases h : p r = true
    · rw [List.cons_append, List.find?_cons_of_pos _ h,
        List.find?_cons_of_pos _ h]
      rfl
    · rw [List.cons_append, List.find?_cons_of_neg _ (by simpa using h),
        List.find?_cons_of_neg _ (by simpa using h)]
      exact ih

/-- `setMeta` updates exactly the targeted key of the metadata map. -/
theorem getMeta_setMeta (now : Nat) (k v k' : String) (m : List MetaRow) :
    getMeta k' (setMeta now k v m) = if k' = k then some v else getMeta k' m := by
  have hpred : ∀ r : MetaRow,
      (((if (r.key == k) = true then (⟨r.key, v, now⟩ : MetaRow) else r)).key == k')
        = (r.key == k') := by
    intro r
    by_cases h : (r.key == k) = true <;> simp [h]
  unfold setMeta getMeta
  split
  · next hany =>
    rw [find?_map_of_pred (fun r => r.key == k') _ hpred]
    by_cases hk : k' = k
    · subst hk
      have hsome : (m.find? (fun r => r.key == k')).isSome := by
        rw [List.find?_isSome]
        obtain ⟨r, hr, hpr⟩ := List.any_eq_true.mp hany
        exact ⟨r, hr, hpr⟩
      obtain ⟨r0, hr0⟩ := Option.isSome_iff_exists.mp hsome
      have hkey := List.find?_some hr0
      rw [hr0, if_pos rfl]
      simp only [Option.map_some']
      simp [hkey]
    · rw [if_neg hk]
      cases hfind : m.find? (fun r => r.key == k') with
      | none => simp
      | some r0 =>
        have hkey := List.find?_some hfind
        have hr0k : r0.key = k' := by simpa using hkey
        simp [hr0k, hk]
  · next hany =>
    rw [metaFind?_append]
    by_cases hk : k' = k
    · subst hk
      have hnone : m.find? (fun r => r.key == k') = none := by
        rw [List.find?_eq_none]
        intro r hr
        simp [any_false_no_match _ _ hany r hr]
      rw [hnone, if_pos rfl]
      simp [List.find?_cons]
    · rw [if_neg hk]
      have hlast : ([(⟨k, v, now⟩ : MetaRow)].find? (fun r => r.key == k')) = none := by
        have : ((⟨k, v, now⟩ : MetaRow).key == k') = false :=
          beq_eq_false_iff_ne.mpr (fun h => hk h.symm)
        simp [List.find?_cons, this]
      rw [hlast]
      simp

/-- C9: `clearAll` empties exactly the six data tables and resets
`last_full_sync` to the empty string; every other `sync_meta` row (the
invalidation flag and reason, document name, schema version, ...) is left as
it was, so an invalidation flag survives the clear step of a forced
rebuild. -/
theorem clearAll_spec (now : Nat) (st : CacheState) :
    (clearAll now st).nodes = [] ∧
    (clearAll now st).components = [] ∧
    (clearAll now st).pages = [] ∧
    (clearAll now st).design_tokens = [] ∧
    (clearAll now st).varRows = [] ∧
    (clearAll now st).variable_collections = [] ∧
    getMeta "last_full_sync" (clearAll now st).sync_meta = some "" ∧
    (∀ k, k ≠ "last_full_sync" →
      getMeta k (clearAll now st).sync_meta = getMeta k st.sync_meta) := by
  refine ⟨rfl, rfl, rfl, rfl, rfl, rfl, ?_, ?_⟩
  · show getMeta "last_full_sync"
      (setMeta now "last_full_sync" "" st.sync_meta) = some ""
    rw [getMeta_setMeta]
    simp
  · intro k hk
    show getMeta k (setMeta now "last_full_sync" "" st.sync_meta) =
      getMeta k st.sync_meta
    rw [getMeta_setMeta]
    simp [hk]

/-- Witness for `clearAll_spec`: on a store whose `sync_meta` holds an
invalidation flag, the flag survives `clearAll`. -/
theorem clearAll_spec_witness :
    getMeta "index_invalidated"
      (clearAll 99 ⟨[], [], [], [], [], [],
        [⟨"schema_version", "1.0", 1⟩, ⟨"last_full_sync", "2025-01-01", 2⟩,
         ⟨"index_invalidated", "true", 3⟩,
         ⟨"invalidation_reason", "document_change:t", 3⟩,
         ⟨"document_name", "Doc", 2⟩]⟩).sync_meta =
      getMeta "index_invalidated"
        [⟨"schema_version", "1.0", 1⟩, ⟨"last_full_sync", "2025-01-01", 2⟩,
         ⟨"index_invalidated", "true", 3⟩,
         ⟨"invalidation_reason", "document_change:t", 3⟩,
         ⟨"document_name", "Doc", 2⟩] :=
  (clearAll_spec 99 _).2.2.2.2.2.2.2 "index_invalidated" (by decide)
/-- After any upsert there is a row carrying the upserted `figma_id`. -/
theorem upsertNode_any (now : Nat) (n : NodeInput) (t : List NodeRow) :
    (upsertNode now n t).any (fun r => r.fields.figma_id == n.figma_id) = true := by
  unfold upsertNode
  split
  · next h =>
    rw [List.any_eq_true] at h ⊢
    obtain ⟨r, hr, hm⟩ := h
    refine ⟨_, List.mem_map_of_mem _ hr, ?_⟩
    simp [hm]
  · rw [List.any_eq_true]
    exact ⟨_, List.mem_append_right _ (List.mem_singleton_self _), by simp⟩

/-- After an upsert, every row that carries the upserted `figma_id` holds
the upserted field values and the fresh timestamp. -/
theorem upsertNode_winner (now : Nat) (n : NodeInput) (t : List NodeRow) :
    ∀ r ∈ upsertNode now n t, r.fields.figma_id = n.figma_id →
      r.fields = n ∧ r.last_synced = now := by
  unfold upsertNode
  split
  · next h =>
    intro r hr hid
    rw [List.mem_map] at hr
    obtain ⟨r0, hr0, heq⟩ := hr
    by_cases hm : (r0.fields.figma_id == n.figma_id) = true
    · rw [if_pos hm] at heq
      rw [← heq]
      exact ⟨rfl, rfl⟩
    · rw [if_neg hm] at heq
      subst heq
      exact absurd hid (by simpa using hm)
  · next h =>
    intro r hr hid
    rcases List.mem_append.mp hr with hin | hsing
    · have := any_false_no_match _ _ h r hin
      exact absurd hid (by simpa using this)
    · rw [List.mem_singleton.mp hsing]
      exact ⟨rfl, rfl⟩

/-- An upsert leaves exactly one row per `figma_id`: the count becomes one
if it was zero and is otherwise unchanged. -/
theorem nodeCountFor_upsertNode (now : Nat) (n : NodeInput) (t : List NodeRow) :
    nodeCountFor n.figma_id (upsertNode now n t) =
      if nodeCountFor n.figma_id t = 0 then 1 else nodeCountFor n.figma_id t := by
  unfold upsertNode nodeCountFor
  split
  · next h =>
    have hpos : (t.filter (fun r => r.fields.figma_id == n.figma_id)).length ≠ 0 := by
      obtain ⟨r, hr, hm⟩ := List.any_eq_true.mp h
      have hmem : r ∈ t.filter (fun r => r.fields.figma_id == n.figma_id) :=
        List.mem_filter.mpr ⟨hr, hm⟩
      intro hlen
      rw [List.length_eq_zero] at hlen
      simp [hlen] at hmem
    rw [if_neg hpos]
    rw [List.filter_map, List.length_map]
    congr 1
    apply List.filter_congr
    intro r hr
    by_cases hm : (r.fields.figma_id == n.figma_id) = true
    · have hm' : r.fields.figma_id = n.figma_id := by simpa using hm
      simp [Function.comp, hm', hm]
    · have hm' : ¬r.fields.figma_id = n.figma_id := by simpa using hm
      simp [Function.comp, hm']
  · next h =>
    have hzero : (t.filter (fun r => r.fields.figma_id == n.figma_id)).length = 0 := by
      rw [List.length_eq_zero, List.filter_eq_nil_iff]
      intro r hr
      simp [any_false_no_match _ _ h r hr]
    rw [if_pos hzero, List.filter_append, List.length_append, hzero]
    simp

/-- C1: starting from a table with at most one row for the record's
`figma_id` (the schema's UNIQUE constraint), upserting the same record twice
leaves exactly one row for that id; that row carries the second call's field
values with `last_synced` refreshed to the second timestamp; and apart from
`last_synced` the second upsert changes nothing — re-running ingestion over
unchanged data is a logical no-op. -/
theorem upsertNode_idempotent (t1 t2 : Nat) (n : NodeInput) (t : List NodeRow)
    (huniq : nodeCountFor n.figma_id t ≤ 1) :
    nodeCountFor n.figma_id (upsertNode t2 n (upsertNode t1 n t)) = 1 ∧
    (∀ r ∈ upsertNode t2 n (upsertNode t1 n t),
      r.fields.figma_id = n.figma_id → r.fields = n ∧ r.last_synced = t2) ∧
    nodesLogical (upsertNode t2 n (upsertNode t1 n t)) =
      nodesLogical (upsertNode t1 n t) := by
  have hcount1 : nodeCountFor n.figma_id (upsertNode t1 n t) = 1 := by
    rw [nodeCountFor_upsertNode]
    split
    · rfl
    · next hne => omega
  refine ⟨?_, upsertNode_winner t2 n _, ?_⟩
  · rw [nodeCountFor_upsertNode, hcount1]
    simp
  · have hany := upsertNode_any t1 n t
    conv_lhs => rw [upsertNode, if_pos hany]
    unfold nodesLogical
    rw [List.map_map]
    apply List.map_congr_left
    intro r hr
    by_cases hm : (r.fields.figma_id == n.figma_id) = true
    · have hm' : r.fields.figma_id = n.figma_id := by simpa using hm
      have hw := upsertNode_winner t1 n t r hr hm'
      simp [Function.comp, hm', hw.1]
    · have hm' : ¬r.fields.figma_id = n.figma_id := by simpa using hm
      simp [Function.comp, hm']

/-- A sample node record used in concrete witnesses. -/
def sampleNodeInput : NodeInput :=
  { figma_id := "1:2"
    name := "Primary Button"
    type_ := "INSTANCE"
    parent_id := some "1:1"
    page_id := "0:1"
    path := "Page 1/Login Card/Primary Button"
    depth := 2
    component_key := none
    component_name := none
    daisyui_class := some "btn btn-primary"
    daisyui_component := some "button"
    daisyui_variant := some "primary"
    daisyui_size := none
    tailwind_classes := none
    data_testid := some "page-1-login-card-primary-button"
    x := some 4
    y := some 8
    width := some 120
    height := some 40
    content_hash := some "aGFzaA" }

/-- Witness for `upsertNode_idempotent`: double upsert of one record into
the empty table. -/
theorem upsertNode_idempotent_witness :
    nodeCountFor sampleNodeInput.figma_id
      (upsertNode 20 sampleNodeInput (upsertNode 10 sampleNodeInput [])) = 1 :=
  (upsertNode_idempotent 10 20 sampleNodeInput [] (by decide)).1
/-- A query none of whose fragments contains a token matches no row. -/
theorem ftsRowMatch_of_all_empty (q : String)
    (h : (queryPhrases q).all List.isEmpty = true) (r : NodeRow) :
    ftsRowMatch q r = false := by
  unfold ftsRowMatch
  rw [List.any_eq_false]
  intro ph hph
  have hempty : ph.isEmpty = true := List.all_eq_true.mp h ph hph
  simp only [Bool.not_eq_true, List.any_eq_false]
  intro col _
  simp [phraseMatches, hempty]

/-- C4: `searchNodes` strips quotes, splits the query on whitespace, turns
each fragment into a prefix phrase and joins them with OR (concretely
`"login card"` becomes `"login"* OR "card"*`); it returns at most
`options.limit || 20` rows, each of which is a table row matching the
disjunction (OR semantics over the fragments), ordered by ascending
relevance score; when the limit is not binding a row is returned *iff* it
matches; and a query with no usable tokens — the empty string or pure
punctuation — yields no matches at all (the model is total: no exception). -/
theorem searchNodes_spec (score : NodeRow → Int) (q : String)
    (opts : SearchOpts) (t : List NodeRow) :
    buildFtsQuery "login card" = "\"login\"* OR \"card\"*" ∧
    (searchNodes score q opts t).length ≤ opts.limit.getD 20 ∧
    (∀ p ∈ searchNodes score q opts t,
      p.1 ∈ t ∧ ftsRowMatch q p.1 = true ∧ searchRowKeep q opts p.1 = true ∧
        p.2 = score p.1) ∧
    List.Pairwise (fun a b : NodeRow × Int => a.2 ≤ b.2)
      (searchNodes score q opts t) ∧
    ((queryPhrases q).all List.isEmpty = true → searchNodes score q opts t = []) ∧
    (t.length ≤ opts.limit.getD 20 →
      ∀ r : NodeRow, (r, score r) ∈ searchNodes score q opts t ↔
        (r ∈ t ∧ searchRowKeep q opts r = true)) := by
  refine ⟨by decide, ?_, ?_, ?_, ?_, ?_⟩
  · exact List.length_take_le _ _
  · intro p hp
    have hp1 : p ∈ ((t.filter (searchRowKeep q opts)).map
        (fun r => (r, score r))).mergeSort (fun a b => decide (a.2 ≤ b.2)) :=
      List.mem_of_mem_take hp
    have hp2 : p ∈ (t.filter (searchRowKeep q opts)).map (fun r => (r, score r)) :=
      (List.mergeSort_perm _ _).mem_iff.mp hp1
    rw [List.mem_map] at hp2
    obtain ⟨r, hr, hpr⟩ := hp2
    have hrt := List.mem_filter.mp hr
    subst hpr
    refine ⟨hrt.1, ?_, hrt.2, rfl⟩
    have hkeep := hrt.2
    unfold searchRowKeep at hkeep
    simp only [Bool.and_eq_true] at hkeep
    exact hkeep.1.1
  · have hsorted := @List.sorted_mergeSort (NodeRow × Int)
      (fun a b => decide (a.2 ≤ b.2))
      (fun a b c hab hbc => by
        simp only [decide_eq_true_eq] at *
        omega)
      (fun a b => by
        simp only [Bool.or_eq_true, decide_eq_true_eq]
        omega)
      ((t.filter (searchRowKeep q opts)).map (fun r => (r, score r)))
    have htake := List.Pairwise.sublist
      (List.take_sublist (opts.limit.getD 20)
        (((t.filter (searchRowKeep q opts)).map
          (fun r => (r, score r))).mergeSort (fun a b => decide (a.2 ≤ b.2))))
      hsorted
    exact htake.imp (fun h => by simpa using h)
  · intro h
    have hfilter : t.filter (searchRowKeep q opts) = [] := by
      rw [List.filter_eq_nil_iff]
      intro r _
      unfold searchRowKeep
      rw [ftsRowMatch_of_all_empty q h r]
      simp
    unfold searchNodes
    rw [hfilter]
    simp
  · intro hlim r
    have hlen : (((t.filter (searchRowKeep q opts)).map
        (fun r => (r, score r))).mergeSort (fun a b => decide (a.2 ≤ b.2))).length ≤
        opts.limit.getD 20 := by
      rw [List.length_mergeSort, List.length_map]
      exact le_trans (List.length_filter_le _ _) hlim
    unfold searchNodes
    rw [List.take_of_length_le hlen]
    rw [(List.mergeSort_perm _ _).mem_iff, List.mem_map]
    constructor
    · rintro ⟨a, ha, hpa⟩
      have : a = r := congrArg Prod.fst hpa
      subst this
      exact List.mem_filter.mp ha
    · intro hr
      exact ⟨r, List.mem_filter.mpr hr, rfl⟩

/-- Witness for `searchNodes_spec`: the empty query returns nothing, and
with a non-binding limit the two-word query `"login card"` returns the
sample row, which matches on the word `card` (and `login`) of its path. -/
theorem searchNodes_spec_witness :
    searchNodes (fun _ => 0) "" ⟨none, none, none, none⟩
      [⟨1, sampleNodeInput, 10⟩] = [] ∧
    ((⟨1, sampleNodeInput, 10⟩ : NodeRow), (0 : Int)) ∈
      searchNodes (fun _ => 0) "login card" ⟨none, none, none, none⟩
        [⟨1, sampleNodeInput, 10⟩] :=
  ⟨(searchNodes_spec (fun _ => 0) "" ⟨none, none, none, none⟩
      [⟨1, sampleNodeInput, 10⟩]).2.2.2.2.1 (by decide),
   ((searchNodes_spec (fun _ => 0) "login card" ⟨none, none, none, none⟩
      [⟨1, sampleNodeInput, 10⟩]).2.2.2.2.2 (by decide) _).mpr (by decide)⟩
/-- Rows present in a pages table keep their id present across an
`upsertPage` (the update branch rewrites a matching row in place, keyed on
the same id). -/
theorem upsertPage_mem_old (now : Nat) (p : PageInput) (t : List PageRow)
    (i : String) (h : ∃ q ∈ t, q.input.id = i) :
    ∃ q ∈ upsertPage now p t, q.input.id = i := by
  obtain ⟨q, hq, hqi⟩ := h
  unfold upsertPage
  split
  · by_cases hqp : (q.input.id == p.id) = true
    · refine ⟨_, List.mem_map_of_mem _ hq, ?_⟩
      have heq : q.input.id = p.id := by simpa using hqp
      show (if (q.input.id == p.id) = true then
        ({ input := p, last_synced := now } : PageRow) else q).input.id = i
      rw [if_pos hqp]
      exact heq ▸ hqi
    · refine ⟨_, List.mem_map_of_mem _ hq, ?_⟩
      show (if (q.input.id == p.id) = true then
        ({ input := p, last_synced := now } : PageRow) else q).input.id = i
      rw [if_neg hqp]
      exact hqi
  · exact ⟨q, List.mem_append_left _ hq, hqi⟩

/-- After `upsertPage p` the id `p.id` is present. -/
theorem upsertPage_mem_new (now : Nat) (p : PageInput) (t : List PageRow) :
    ∃ q ∈ upsertPage now p t, q.input.id = p.id := by
  unfold upsertPage
  split
  · next hany =>
    obtain ⟨r, hr, hm⟩ := List.any_eq_true.mp hany
    exact ⟨_, List.mem_map_of_mem _ hr, by simp [hm]⟩
  · exact ⟨⟨p, now⟩, List.mem_append_right _ (List.mem_singleton_self _), rfl⟩

/-- An `upsertNode` preserves any property of the stored `page_id`s that
also holds for the incoming record's `page_id`. -/
theorem upsertNode_pageP (now : Nat) (n : NodeInput) (t : List NodeRow)
    (P : String → Prop) (ht : ∀ r ∈ t, P r.fields.page_id)
    (hn : P n.page_id) :
    ∀ r ∈ upsertNode now n t, P r.fields.page_id := by
  unfold upsertNode
  split
  · intro r hr
    rw [List.mem_map] at hr
    obtain ⟨r0, hr0, heq⟩ := hr
    subst heq
    by_cases hm : (r0.fields.figma_id == n.figma_id) = true
    · rw [if_pos hm]
      exact hn
    · rw [if_neg hm]
      exact ht r0 hr0
  · intro r hr
    rcases List.mem_append.mp hr with hin | hsing
    · exact ht r hin
    · rw [List.mem_singleton.mp hsing]
      exact hn

/-- The node walk never touches the pages table. -/
theorem walkNodes_pages (now : Nat) (fns : DeriveFns) (pageId : String) :
    ∀ (l : List FigmaNode) (pp : String) (d : Nat) (st : CacheState),
      (walkNodes now fns pageId l pp d st).pages = st.pages
  | [], _, _, st => by rw [walkNodes]
  | .node i nm ty pid ck px py pw phh cs :: rest, pp, d, st => by
    rw [walkNodes]
    rw [walkNodes_pages now fns pageId rest pp d _]
    rw [walkNodes_pages now fns pageId cs _ _ _]
    split
    · split <;> rfl
    · rfl

/-- Every node row written by the walk carries `page_id = pageId`, so any
property of the stored `page_id`s that holds for `pageId` is preserved. -/
theorem walkNodes_nodesP (now : Nat) (fns : DeriveFns) (pageId : String)
    (P : String → Prop) (hP : P pageId) :
    ∀ (l : List FigmaNode) (pp : String) (d : Nat) (st : CacheState),
      (∀ r ∈ st.nodes, P r.fields.page_id) →
      ∀ r ∈ (walkNodes now fns pageId l pp d st).nodes, P r.fields.page_id
  | [], _, _, st => by
    rw [walkNodes]
    exact fun h => h
  | .node i nm ty pid ck px py pw phh cs :: rest, pp, d, st => by
    intro hst
    rw [walkNodes]
    apply walkNodes_nodesP now fns pageId P hP rest pp d _
    apply walkNodes_nodesP now fns pageId P hP cs _ _ _
    have hup : ∀ r ∈ upsertNode now
        (mkWalkInput fns pageId pp
          (if (pp == "") = true then nm else pp ++ "/" ++ nm) d
          (.node i nm ty pid ck px py pw phh cs)) st.nodes,
        P r.fields.page_id :=
      upsertNode_pageP now _ st.nodes P hst hP
    split
    · split
      · exact hup
      · exact hup
    · exact hup

/-- One page-loop iteration preserves referential integrity: the page row is
upserted before any of its nodes, every walked node points at `pg.id`, and
the closing counts upsert only rewrites the same page row. -/
theorem syncPage_refint (now : Nat) (fns : DeriveFns) (st : CacheState)
    (pg : PageMeta) (children : List FigmaNode) (h : RefIntegrity st) :
    RefIntegrity (syncPage now fns st pg children) := by
  have hnodes : ∀ rr ∈ (walkNodes now fns pg.id children pg.name 1
      { st with pages := upsertPage now (placeholderPage pg) st.pages }).nodes,
      ∃ p ∈ upsertPage now (placeholderPage pg) st.pages,
        p.input.id = rr.fields.page_id := by
    apply walkNodes_nodesP now fns pg.id
      (fun pid => ∃ p ∈ upsertPage now (placeholderPage pg) st.pages,
        p.input.id = pid)
      (upsertPage_mem_new now (placeholderPage pg) st.pages) children pg.name 1 _
    intro rr hrr
    exact upsertPage_mem_old now (placeholderPage pg) st.pages _ (h rr hrr)
  intro r hr
  have hr' : r ∈ (walkNodes now fns pg.id children pg.name 1
      { st with pages := upsertPage now (placeholderPage pg) st.pages }).nodes := hr
  have hpresent : ∃ p ∈ (walkNodes now fns pg.id children pg.name 1
      { st with pages := upsertPage now (placeholderPage pg) st.pages }).pages,
      p.input.id = r.fields.page_id := by
    rw [walkNodes_pages]
    exact hnodes r hr'
  exact upsertPage_mem_old now _ _ _ hpresent

/-- C5: after a sync — forced rebuild (which first clears every table) or
incremental over a store that already satisfied the invariant — every node
row's `page_id` references an existing page row: the page loop writes each
Page row (with placeholder counts) before upserting any of its nodes. -/
theorem buildIndex_refIntegrity (now : Nat) (fns : DeriveFns)
    (docName : String) (doc : List (PageMeta × List FigmaNode)) (force : Bool)
    (st : CacheState) (h : force = true ∨ RefIntegrity st) :
    RefIntegrity (buildIndexPages now fns docName doc force st) := by
  have h0 : RefIntegrity (if force then clearAll now st else st) := by
    cases force
    · rcases h with hf | hok
      · exact absurd hf (by simp)
      · simpa using hok
    · intro r hr
      simp [clearAll] at hr
  have hfold : ∀ (l : List (PageMeta × List FigmaNode)) (s : CacheState),
      RefIntegrity s →
      RefIntegrity (l.foldl (fun acc pr => syncPage now fns acc pr.1 pr.2) s) := by
    intro l
    induction l with
    | nil => exact fun s hs => hs
    | cons p rest ih =>
      intro s hs
      exact ih _ (syncPage_refint now fns s p.1 p.2 hs)
  intro r hr
  exact hfold doc _ h0 r hr

/-- The opaque collaborators instantiated trivially for witnesses. -/
def trivialFns : DeriveFns :=
  { daisyDetect := fun _ _ => none
    componentCategory := fun _ _ => ""
    usageHintOf := fun _ => none
    tailwindClassesOf := fun _ => none
    hashOf := fun _ => "" }

/-- Witness for `buildIndex_refIntegrity`: a forced rebuild over one page
with one frame yields a store with no dangling `page_id`. -/
theorem buildIndex_refIntegrity_witness :
    RefIntegrity (buildIndexPages 5 trivialFns "Doc"
      [(⟨"0:1", "Page 1"⟩,
        [FigmaNode.node "1:1" "Login Card" "FRAME" none none none none none none []])]
      true ⟨[], [], [], [], [], [], []⟩) :=
  buildIndex_refIntegrity 5 trivialFns "Doc"
    [(⟨"0:1", "Page 1"⟩,
      [FigmaNode.node "1:1" "Login Card" "FRAME" none none none none none none []])]
    true ⟨[], [], [], [], [], [], []⟩ (Or.inl rfl)

end FigmaIndex
